import Mathlib

/-!
# Verification of the ANTS serial protocol implementation

A shallow embedding of the ANTS framing and reliable-delivery code
(`ants.go`, `crc.go` and friends) in Lean, together with theorems settling
the specification claims about it.  Bytes are modelled as `Nat` values;
machine-word arithmetic in the CRC routines is made explicit with `% 256`,
`% 65536` and friends.  Definitions whose name starts with `spec` follow the
specification's words and exist only to be compared against the definitions
taken from the source.
-/

namespace Ants

/-! ## Protocol constants (`ants.go`) -/

/-- Data-link escape byte. -/
def dle : Nat := 0x10

/-- Unknown message sequence number (UMSN). -/
def umsn : Nat := 0

/-- Start-of-text control character. -/
def stx : Nat := 0x02

/-- End-of-text control character. -/
def etx : Nat := 0x03

/-- Acknowledge control character. -/
def ack : Nat := 0x06

/-- Negative-acknowledge control character. -/
def nak : Nat := 0x15

/-- Maximum accumulated message size in the read loop, in bytes. -/
def maxMessageSize : Nat := 2048

/-! ## Escape codec (`escapeDLE` / `unescapeDLE` in `ants.go`) -/

/-- `escapeDLE` from the source: every literal DLE byte is doubled, all other
bytes pass through unchanged. -/
def escapeDLE : List Nat → List Nat
  | [] => []
  | b :: rest => if b = dle then dle :: dle :: escapeDLE rest else b :: escapeDLE rest

/-- The loop body of `unescapeDLE` from the source: the `Bool` argument is the
`isEscaped` flag.  When the flag is clear and a DLE arrives, the flag is set and
nothing is emitted; otherwise the byte is emitted and the flag cleared. -/
def unescapeDLERun : Bool → List Nat → List Nat
  | _, [] => []
  | false, b :: rest =>
    if b = dle then unescapeDLERun true rest else b :: unescapeDLERun false rest
  | true, b :: rest => b :: unescapeDLERun false rest

/-- `unescapeDLE` from the source: scan with the escape flag initially clear. -/
def unescapeDLE (data : List Nat) : List Nat := unescapeDLERun false data

/-! ## Checksum providers (`crc.go`)

`crc16` models `crc16.Checksum` of the `howeyc/crc16` package with the table
built from the reflected polynomial `0x8408` (initial register 0, no final
inversion).  `crc32` models Go's `hash/crc32` `Checksum` with the table built
from the Koopman polynomial `0xeb31d82e` (initial register `0xffffffff` and
final inversion). -/

/-- CRC-16 polynomial (CCITT reflected form), from `crc.go`. -/
def crc16Polynomial : Nat := 0x8408

/-- CRC-32 polynomial (Koopman), from `crc.go`. -/
def crc32Polynomial : Nat := 0xeb31d82e

/-- Iterate a function a fixed number of times. -/
def iterStep (f : Nat → Nat) : Nat → Nat → Nat
  | 0, x => x
  | k + 1, x => iterStep f k (f x)

/-- One bit of the reflected CRC-16 table computation. -/
def crcStep16 (crc : Nat) : Nat :=
  if crc % 2 = 1 then (crc / 2) ^^^ crc16Polynomial else crc / 2

/-- Entry `n` of the CRC-16 lookup table (`MakeTable(0x8408)`). -/
def crc16Entry (n : Nat) : Nat := iterStep crcStep16 8 (n % 256)

/-- One step of `crc16.Update`: `crc = tab[byte(crc)^v] ^ (crc >> 8)`. -/
def crc16Update (crc b : Nat) : Nat :=
  crc16Entry ((crc % 256) ^^^ (b % 256)) ^^^ (crc / 256)

/-- `crc16.Checksum` over a byte sequence, starting from register 0. -/
def crc16 (data : List Nat) : Nat := data.foldl crc16Update 0

/-- `binary.LittleEndian.Uint16` on the first two bytes. -/
def leUint16 (raw : List Nat) : Nat := raw.getD 0 0 + 256 * raw.getD 1 0

/-- `crc16Validator.Checksum`: the CRC-16 value serialized little-endian. -/
def crc16Bytes (data : List Nat) : List Nat :=
  [crc16 data % 256, crc16 data / 256 % 256]

/-- `crc16Validator.Validate`: decode the raw CRC little-endian and compare. -/
def crc16Validate (data raw : List Nat) : Bool := crc16 data == leUint16 raw

/-- One bit of the reflected CRC-32 table computation. -/
def crcStep32 (crc : Nat) : Nat :=
  if crc % 2 = 1 then (crc / 2) ^^^ crc32Polynomial else crc / 2

/-- Entry `n` of the CRC-32 lookup table (`crc32.MakeTable(0xeb31d82e)`). -/
def crc32Entry (n : Nat) : Nat := iterStep crcStep32 8 (n % 256)

/-- One step of the CRC-32 update loop. -/
def crc32Update (crc b : Nat) : Nat :=
  crc32Entry ((crc % 256) ^^^ (b % 256)) ^^^ (crc / 256)

/-- `crc32.Checksum`: initial register `0xffffffff`, final inversion. -/
def crc32 (data : List Nat) : Nat :=
  0xffffffff ^^^ data.foldl crc32Update 0xffffffff

/-- `binary.LittleEndian.Uint32` on the first four bytes. -/
def leUint32 (raw : List Nat) : Nat :=
  raw.getD 0 0 + 256 * raw.getD 1 0 + 65536 * raw.getD 2 0 + 16777216 * raw.getD 3 0

/-- `crc32Validator.Checksum`: the CRC-32 value serialized little-endian. -/
def crc32Bytes (data : List Nat) : List Nat :=
  [crc32 data % 256, crc32 data / 256 % 256, crc32 data / 65536 % 256,
    crc32 data / 16777216 % 256]

/-- `crc32Validator.Validate`. -/
def crc32Validate (data raw : List Nat) : Bool := crc32 data == leUint32 raw

/-! ## Transmit side (`writeDataMessagesLoop`, `writeControlMessage`) -/

/-- The frame construction performed by one iteration of
`writeDataMessagesLoop` in `ants.go` on a submitted data chunk, line by line:
escape the data, prepend the escaped STX control character, compute the CRC of
that byte sequence, escape the CRC, append it, and append the escaped ETX
control character. -/
def buildDataFrame (checksum : List Nat → List Nat) (payload : List Nat) : List Nat :=
  let data := escapeDLE payload
  let data2 := [dle, stx] ++ data
  let crc := checksum data2
  let crcEsc := escapeDLE crc
  (data2 ++ crcEsc) ++ [dle, etx]

/-- The distinct data frames the source writes for one submitted payload: one
iteration of `writeDataMessagesLoop` consumes the whole chunk and builds a
single frame; the inner `ResendLoop` rewrites the same bytes. -/
def framesForPayload (checksum : List Nat → List Nat) (payload : List Nat) :
    List (List Nat) :=
  [buildDataFrame checksum payload]

/-- `writeControlMessage` from the source.  Its body is an unimplemented
`TODO`; it writes no bytes to the transport, modelled here as the (empty)
byte sequence emitted for a control message. -/
def writeControlMessage (ctrlType msn : Nat) : List Nat := []

/-- `controlMessage` from `ants.go`: a received control frame as seen by the
transmit engine. -/
structure controlMessage where
  TypeCharacter : Nat
  MSN : Nat
  deriving DecidableEq

/-- The decision taken by the `ResendLoop` in `writeDataMessagesLoop` when a
control message arrives: it breaks out of the loop exactly when the type
character is ACK; the MSN carried by the message is not consulted. -/
def resendLoopBreaks (cm : controlMessage) : Bool := cm.TypeCharacter == ack

/-! ## Receive side (`handleReceivedDataMessageBody`) -/

/-- The observable result of `handleReceivedDataMessageBody`: the reassembly
buffer afterwards, the payload pushed to `readDataChunkChan` (if any), the
`(type, msn)` pair passed to `writeControlMessage` by the deferred call, and
whether the body was accepted. -/
structure HandleResult where
  buffer : List Nat
  published : Option (List Nat)
  ctrl : Nat × Nat
  ok : Bool
  deriving DecidableEq

/-- `handleReceivedDataMessageBody` from `ants.go`, parameterized by the
configured CRC length and validator (`p.dataMessageCRCLength`,
`p.dataMessageCRCValidator`): reject bodies shorter than `2 + crcLen`, split
off and validate the trailing checksum, then either publish
`buffer ++ binData` and clear the buffer (append flag zero) or append
`binData` to the buffer. -/
def handleReceivedDataMessageBody (crcLen : Nat) (validate : List Nat → List Nat → Bool)
    (buffer body : List Nat) : HandleResult :=
  if body.length < 2 + crcLen then
    HandleResult.mk buffer none (nak, umsn) false
  else
    let pos := body.length - crcLen
    let crcChecksum := body.drop pos
    let trimmed := body.take pos
    if validate trimmed crcChecksum = false then
      HandleResult.mk buffer none (nak, umsn) false
    else
      let pmsn := trimmed.getD 0 0
      let appendData := trimmed.getD 1 0
      let binData := trimmed.drop 2
      if appendData = 0 then
        HandleResult.mk [] (some (buffer ++ binData)) (ack, pmsn) true
      else
        HandleResult.mk (buffer ++ binData) none (ack, pmsn) true

/-- Run the data-frame handler over a sequence of completed bodies in order,
threading the reassembly buffer and collecting the published payloads. -/
def processBodies (crcLen : Nat) (validate : List Nat → List Nat → Bool) :
    List Nat → List (List Nat) → List Nat × List (List Nat)
  | buffer, [] => (buffer, [])
  | buffer, body :: rest =>
    let r := handleReceivedDataMessageBody crcLen validate buffer body
    let next := processBodies crcLen validate r.buffer rest
    (next.1, r.published.toList ++ next.2)

/-- A body passes the handler's validation: long enough and checksum valid. -/
def validBody (crcLen : Nat) (validate : List Nat → List Nat → Bool)
    (body : List Nat) : Bool :=
  decide (2 + crcLen ≤ body.length) &&
    validate (body.take (body.length - crcLen)) (body.drop (body.length - crcLen))

/-- The MSN field the handler extracts from a body. -/
def msnOf (crcLen : Nat) (body : List Nat) : Nat :=
  (body.take (body.length - crcLen)).getD 0 0

/-- The append-data flag the handler extracts from a body. -/
def flagOf (crcLen : Nat) (body : List Nat) : Nat :=
  (body.take (body.length - crcLen)).getD 1 0

/-- The fragment payload the handler extracts from a body. -/
def payloadOf (crcLen : Nat) (body : List Nat) : List Nat :=
  (body.take (body.length - crcLen)).drop 2

/-! ## Frame parser (`readMessagesLoop`) -/

/-- The mutable state of `readMessagesLoop`, one field per local variable. -/
structure ParserState where
  buf : List Nat
  controlCharacter : Nat
  isControlMessage : Bool
  startCharacterFound : Bool
  byteIsEscaped : Bool
  deriving DecidableEq

/-- What one parser step hands to the message-body handlers. -/
inductive ParseEvent where
  | noEvent
  | controlFrame (c : Nat) (body : List Nat)
  | dataFrame (body : List Nat)
  deriving DecidableEq

/-- The tail of the per-byte closure in `readMessagesLoop`: append the byte to
the buffer and, if the buffer then exceeds `maxMessageSize`, discard it.  The
flags other than the escape flag are left untouched. -/
def parserAppend (s : ParserState) (b : Nat) : ParserState × ParseEvent :=
  let newBuf := s.buf ++ [b]
  if maxMessageSize < newBuf.length then
    (ParserState.mk [] s.controlCharacter s.isControlMessage s.startCharacterFound false,
      ParseEvent.noEvent)
  else
    (ParserState.mk newBuf s.controlCharacter s.isControlMessage s.startCharacterFound false,
      ParseEvent.noEvent)

/-- One byte of `readMessagesLoop` (the `case b := <-p.readChan` closure):
an unescaped DLE sets the escape flag; an escaped byte is matched against the
start characters (when no start was found) or against ETX (when inside a
body); every other byte, escaped or not, is appended to the buffer.  On ETX
the buffer is unescaped, handed over, and cleared; the other flags keep their
values, exactly as in the source. -/
def parserStep (s : ParserState) (b : Nat) : ParserState × ParseEvent :=
  if s.byteIsEscaped = false ∧ b = dle then
    (ParserState.mk s.buf s.controlCharacter s.isControlMessage s.startCharacterFound true,
      ParseEvent.noEvent)
  else if s.byteIsEscaped then
    if s.startCharacterFound = false then
      if b = stx then
        (ParserState.mk s.buf s.controlCharacter false true false, ParseEvent.noEvent)
      else if b = ack ∨ b = nak then
        (ParserState.mk s.buf b true true false, ParseEvent.noEvent)
      else
        (ParserState.mk s.buf s.controlCharacter s.isControlMessage false false,
          ParseEvent.noEvent)
    else if b = etx then
      (ParserState.mk [] s.controlCharacter s.isControlMessage s.startCharacterFound false,
        if s.isControlMessage then
          ParseEvent.controlFrame s.controlCharacter (unescapeDLE s.buf)
        else ParseEvent.dataFrame (unescapeDLE s.buf))
    else parserAppend s b
  else parserAppend s b

/-- The initial parser state: empty buffer, all flags clear. -/
def initParserState : ParserState := ParserState.mk [] 0 false false false

/-- Feed a byte sequence to the parser, keeping the resulting state. -/
def runParser (s : ParserState) (input : List Nat) : ParserState :=
  input.foldl (fun st b => (parserStep st b).1) s

/-! ## Port facade (`Port.Read`, `Port.Write`) -/

/-- The possible results of the `select` in `Port.Read`. -/
inductive ReadOutcome where
  | closedPort
  | timedOut
  | gotData (d : List Nat)
  deriving DecidableEq

/-- The `select` in `Port.Read` as a relation: a branch may fire exactly when
its channel is ready.  `closeChan` is ready when the port is closed, the
timeout channel when the timer has fired, and `readDataChunkChan` when a
payload is queued.  Go chooses among simultaneously ready branches
pseudo-randomly, so the relation keeps every ready branch as a possible
outcome. -/
inductive readSelect : Bool → Bool → List (List Nat) → ReadOutcome → Prop where
  | closedReady (tf : Bool) (q : List (List Nat)) :
      readSelect true tf q ReadOutcome.closedPort
  | timerReady (c : Bool) (q : List (List Nat)) :
      readSelect c true q ReadOutcome.timedOut
  | dataReady (c tf : Bool) (d : List Nat) (rest : List (List Nat)) :
      readSelect c tf (d :: rest) (ReadOutcome.gotData d)

/-- The user-visible errors of the port. -/
inductive PortError where
  | errClosed
  | errTimeout
  deriving DecidableEq

/-- `Port.Write` from the source: return `ErrClosed` when the closed flag is
set, otherwise hand the chunk to the write channel and succeed. -/
def portWrite (isClosed : Bool) (data : List Nat) : Except PortError Unit :=
  if isClosed then Except.error PortError.errClosed else Except.ok ()

/-! ## Specification-side definitions

These follow the specification's words, for comparison with the definitions
above taken from the source. -/

/-- The data frame required by the specification: a `DLE STX` prefix, the
DLE-escaping of the pre-escape body `STX msn flag payload` with its checksum
appended, and a `DLE ETX` suffix, the checksum being computed over the
unescaped body. -/
def specDataFrame (checksum : List Nat → List Nat) (msn flag : Nat)
    (payload : List Nat) : List Nat :=
  let body := [stx, msn, flag] ++ payload
  [dle, stx] ++ escapeDLE (body ++ checksum body) ++ [dle, etx]

/-- The send-counter advance rule required by the specification:
`next = 1 if current == 255 else current + 1`. -/
def specNextMSN (c : Nat) : Nat := if c = 255 then 1 else c + 1

/-- The acknowledgement acceptance rule required by the specification: exit
the retransmission loop exactly on an ACK whose MSN matches the transmitted
fragment's MSN. -/
def specAckAccepts (fragMSN : Nat) (cm : controlMessage) : Bool :=
  cm.TypeCharacter == ack && cm.MSN == fragMSN

/-! ## Helper lemmas -/

/-- Escaping never shortens a byte sequence. -/
theorem escapeDLE_length_ge (l : List Nat) : l.length ≤ (escapeDLE l).length := by
  induction l with
  | nil => simp [escapeDLE]
  | cons b rest ih =>
    by_cases hb : b = dle <;> simp [escapeDLE, hb] <;> omega

/-- Unescaping from the clear state consumes an escaped block and leaves the
rest of the input to be processed from the clear state again. -/
theorem unescapeDLERun_escape_append (x rest : List Nat) :
    unescapeDLERun false (escapeDLE x ++ rest) = x ++ unescapeDLERun false rest := by
  induction x with
  | nil => simp [escapeDLE]
  | cons b xs ih =>
    by_cases hb : b = dle
    · subst hb
      simp [escapeDLE, unescapeDLERun, ih]
    · simp [escapeDLE, unescapeDLERun, hb, ih]

/-- A frame built by the source's write loop is at least as long as the
submitted payload. -/
theorem buildDataFrame_length_ge (checksum : List Nat → List Nat) (p : List Nat) :
    p.length ≤ (buildDataFrame checksum p).length := by
  have h := escapeDLE_length_ge p
  simp [buildDataFrame]
  omega

/-- A data frame of the specification's shape for a payload `p` occupies at
least `9 + p.length` bytes on the wire under the CRC-16 provider. -/
theorem specDataFrame_crc16_length_ge (msn flag : Nat) (payload : List Nat) :
    9 + payload.length ≤ (specDataFrame crc16Bytes msn flag payload).length := by
  have h := escapeDLE_length_ge
    (([stx, msn, flag] ++ payload) ++ crc16Bytes ([stx, msn, flag] ++ payload))
  simp [specDataFrame, crc16Bytes] at *
  omega

/-- The handler on a valid body whose append flag is nonzero: the fragment
payload is appended to the reassembly buffer, nothing is published, and an
ACK with the extracted MSN is requested. -/
theorem handle_valid_cont (crcLen : Nat) (validate : List Nat → List Nat → Bool)
    (buffer body : List Nat) (hv : validBody crcLen validate body = true)
    (hf : flagOf crcLen body ≠ 0) :
    handleReceivedDataMessageBody crcLen validate buffer body =
      HandleResult.mk (buffer ++ payloadOf crcLen body) none
        (ack, msnOf crcLen body) true := by
  unfold validBody at hv
  rw [Bool.and_eq_true, decide_eq_true_eq] at hv
  obtain ⟨hlen, hval⟩ := hv
  unfold flagOf at hf
  unfold handleReceivedDataMessageBody
  rw [if_neg (by omega)]
  simp only [hval]
  rw [if_neg (by simp)]
  rw [if_neg hf]
  rfl

/-- The handler on a valid body whose append flag is zero: the buffer plus
the fragment payload is published, the buffer is cleared, and an ACK with the
extracted MSN is requested. -/
theorem handle_valid_final (crcLen : Nat) (validate : List Nat → List Nat → Bool)
    (buffer body : List Nat) (hv : validBody crcLen validate body = true)
    (hf : flagOf crcLen body = 0) :
    handleReceivedDataMessageBody crcLen validate buffer body =
      HandleResult.mk [] (some (buffer ++ payloadOf crcLen body))
        (ack, msnOf crcLen body) true := by
  unfold validBody at hv
  rw [Bool.and_eq_true, decide_eq_true_eq] at hv
  obtain ⟨hlen, hval⟩ := hv
  unfold flagOf at hf
  unfold handleReceivedDataMessageBody
  rw [if_neg (by omega)]
  simp only [hval]
  rw [if_neg (by simp)]
  rw [if_pos hf]
  rfl

/-- Processing a run of valid continuation bodies followed by one valid
terminal body, starting from any buffer, publishes exactly one payload: the
buffer followed by every fragment payload in order; the buffer ends empty. -/
theorem processBodies_concat (crcLen : Nat) (validate : List Nat → List Nat → Bool)
    (frags : List (List Nat)) (last : List Nat) :
    ∀ buffer : List Nat,
    (∀ f ∈ frags, validBody crcLen validate f = true ∧ flagOf crcLen f ≠ 0) →
    validBody crcLen validate last = true → flagOf crcLen last = 0 →
    processBodies crcLen validate buffer (frags ++ [last]) =
      ([], [buffer ++ ((frags.map (payloadOf crcLen)).flatten ++ payloadOf crcLen last)]) := by
  induction frags with
  | nil =>
    intro buffer _ hvl hfl
    simp [processBodies, handle_valid_final crcLen validate buffer last hvl hfl]
  | cons f fs ih =>
    intro buffer hf hvl hfl
    have hfhead := hf f (List.mem_cons_self f fs)
    have hftail : ∀ g ∈ fs, validBody crcLen validate g = true ∧ flagOf crcLen g ≠ 0 :=
      fun g hg => hf g (List.mem_cons_of_mem f hg)
    have hstep := handle_valid_cont crcLen validate buffer f hfhead.1 hfhead.2
    simp only [List.cons_append, processBodies, hstep, List.append_eq]
    rw [ih (buffer ++ payloadOf crcLen f) hftail hvl hfl]
    simp [List.append_assoc]

/-! ## Claim theorems -/

/-- C1.  The claim fails on the code: for the empty payload under the default
CRC-16 configuration, the frame the write loop produces does not equal the
frame the claim describes for any MSN and append-flag values, because the
code's frame contains no MSN or append-flag byte and its CRC is computed over
the escaped bytes including the `DLE STX` prefix.  The code's frame is at
most 8 bytes, the claimed frame at least 9. -/
theorem c1_code_frame_never_matches_claimed_frame (msn flag : Nat) :
    buildDataFrame crc16Bytes [] ≠ specDataFrame crc16Bytes msn flag [] := by
  intro h
  have h1 : (buildDataFrame crc16Bytes []).length = 6 := by decide
  have h2 := specDataFrame_crc16_length_ge msn flag []
  rw [h] at h1
  simp at h2
  omega

/-- C2.  The claim fails on the code: a 2878-byte payload is written as a
single data frame carrying the whole payload, not as three fragments of
1024, 1024 and 830 bytes.  The write loop builds exactly one frame per
submitted payload, and that frame is at least as long as the payload, so no
fragmentation took place. -/
theorem c2_no_fragmentation_of_2878_bytes :
    (framesForPayload crc16Bytes (List.replicate 2878 0)).length = 1 ∧
      2878 ≤ (buildDataFrame crc16Bytes (List.replicate 2878 0)).length := by
  constructor
  · rfl
  · have h := buildDataFrame_length_ge crc16Bytes (List.replicate 2878 0)
    rw [List.length_replicate] at h
    exact h

/-- C3.  The claim fails on the code: the port keeps no send counter and the
frames it writes carry no MSN byte.  For the one-byte payload `[5]` there is
no MSN (and no append-flag value) that makes the claimed frame equal the
frame the code writes. -/
theorem c3_code_frames_carry_no_msn (msn flag : Nat) :
    buildDataFrame crc16Bytes [5] ≠ specDataFrame crc16Bytes msn flag [5] := by
  intro h
  have h1 : (buildDataFrame crc16Bytes [5]).length = 7 := by decide
  have h2 := specDataFrame_crc16_length_ge msn flag [5]
  rw [h] at h1
  simp at h2
  omega

/-- C4.  The claim fails on the code: the resend loop exits on any ACK
without comparing the echoed MSN with the transmitted fragment's MSN.  With
fragment MSN 5 and an incoming ACK carrying MSN 10 the code exits the loop,
while the claimed rule rejects the acknowledgement.  (The code also waits for
a control message with no timeout at all; the 5-second wait is a `TODO` in
the source.) -/
theorem c4_ack_msn_not_compared :
    resendLoopBreaks (controlMessage.mk ack 10) = true ∧
      specAckAccepts 5 (controlMessage.mk ack 10) = false ∧
      resendLoopBreaks (controlMessage.mk nak 5) = false := by
  decide

/-- C5.  The claim fails on the code: the handler requests exactly one
control reply with the claimed arguments — ACK with the extracted MSN on a
valid body, NAK with UMSN on an invalid one — but `writeControlMessage` is an
unimplemented `TODO` stub that writes nothing, so no control frame is ever
emitted. -/
theorem c5_control_reply_is_never_written :
    (handleReceivedDataMessageBody 2 crc16Validate [] ([1, 0] ++ crc16Bytes [1, 0])).ctrl
        = (ack, 1) ∧
      (handleReceivedDataMessageBody 2 crc16Validate [] []).ctrl = (nak, umsn) ∧
      ∀ t m : Nat, writeControlMessage t m = [] := by
  refine ⟨by decide, by decide, fun t m => rfl⟩

/-- C6 counterexample.  Feeding `DLE STX` and then the escaped non-ETX byte
`DLE 0x41` to the parser leaves the in-progress frame in place and appends
`0x41` to the body buffer: the frame is not dropped and the parser does not
return to the idle state, contradicting the claim at this input. -/
theorem c6_counterexample_escaped_byte_kept :
    (runParser initParserState [dle, stx, dle, 65]).buf = [65] ∧
      (runParser initParserState [dle, stx, dle, 65]).startCharacterFound = true := by
  decide

/-- C6 amended.  While the parser is accumulating a body, an escaped byte
other than ETX is appended to the body buffer as ordinary data (as long as
the buffer stays within `maxMessageSize`); the frame is not dropped and the
parser stays in the body-accumulating state. -/
theorem c6_escaped_nonetx_byte_appended (s : ParserState) (b : Nat)
    (hscf : s.startCharacterFound = true) (hesc : s.byteIsEscaped = true)
    (hb : b ≠ etx) (hlen : s.buf.length + 1 ≤ maxMessageSize) :
    parserStep s b =
      (ParserState.mk (s.buf ++ [b]) s.controlCharacter s.isControlMessage true false,
        ParseEvent.noEvent) := by
  unfold parserStep
  rw [if_neg (by simp [hesc])]
  rw [if_pos (by simp [hesc])]
  rw [if_neg (by simp [hscf])]
  rw [if_neg hb]
  unfold parserAppend
  rw [if_neg (by simp; omega)]
  rw [hscf]

/-- C6 witness: the amended statement evaluated at a concrete body state and
the escaped byte `0x41`. -/
theorem c6_escaped_nonetx_byte_appended_witness :
    parserStep (ParserState.mk [1] 0 false true true) 65 =
      (ParserState.mk [1, 65] 0 false true false, ParseEvent.noEvent) :=
  c6_escaped_nonetx_byte_appended (ParserState.mk [1] 0 false true true) 65
    rfl rfl (by decide) (by decide)

/-- C7.  For a run of valid continuation bodies followed by a valid terminal
body (append flag zero), the handler publishes exactly one payload to the
receive queue: the in-order concatenation of all the fragment payloads; and
the reassembly buffer is empty immediately afterwards. -/
theorem c7_published_payload_is_fragment_concat (crcLen : Nat)
    (validate : List Nat → List Nat → Bool) (frags : List (List Nat)) (last : List Nat)
    (hf : ∀ f ∈ frags, validBody crcLen validate f = true ∧ flagOf crcLen f ≠ 0)
    (hvl : validBody crcLen validate last = true) (hfl : flagOf crcLen last = 0) :
    processBodies crcLen validate [] (frags ++ [last]) =
      ([], [(frags.map (payloadOf crcLen)).flatten ++ payloadOf crcLen last]) := by
  have h := processBodies_concat crcLen validate frags last [] hf hvl hfl
  simpa using h

/-- C7 witness: one continuation fragment `[10, 20]` followed by a terminal
fragment `[30]`, both carrying genuine CRC-16 checksums, reassemble to the
single published payload `[10, 20, 30]` with an empty buffer afterwards. -/
theorem c7_published_payload_is_fragment_concat_witness :
    processBodies 2 crc16Validate []
      [[1, 1, 10, 20] ++ crc16Bytes [1, 1, 10, 20], [2, 0, 30] ++ crc16Bytes [2, 0, 30]] =
      ([], [[10, 20, 30]]) := by
  have h := c7_published_payload_is_fragment_concat 2 crc16Validate
    [[1, 1, 10, 20] ++ crc16Bytes [1, 1, 10, 20]] ([2, 0, 30] ++ crc16Bytes [2, 0, 30])
    (by decide) (by decide) (by decide)
  exact h.trans (by decide)

/-- C8.  The escape codec round-trips: unescaping the escaping of any byte
sequence yields the sequence unchanged. -/
theorem c8_unescape_escape_roundtrip (x : List Nat) :
    unescapeDLE (escapeDLE x) = x := by
  have h := unescapeDLERun_escape_append x []
  simpa [unescapeDLE, unescapeDLERun] using h

/-- C9 counterexample.  After the port is closed, the `select` in `Port.Read`
may still deliver a queued payload: with payload `[7]` queued, the data
branch is ready and may fire, so the outcome `gotData [7]`, different from
the closed-port error, is possible — contradicting the claim that every read
after close returns the closed-port error regardless of queued payloads. -/
theorem c9_counterexample_read_after_close_returns_data :
    readSelect true false [[7]] (ReadOutcome.gotData [7]) ∧
      ReadOutcome.gotData [7] ≠ ReadOutcome.closedPort := by
  exact ⟨readSelect.dataReady true false [7] [], by decide⟩

/-- C9 amended.  After close, every `Write` returns the closed-port error,
and a `Read` returns the closed-port error unless a payload is still queued
or its timer already fired, in which case the select may instead deliver that
payload or the timeout; with nothing queued and no timer fired, the
closed-port error is the only possible outcome. -/
theorem c9_after_close_write_fails_and_read_outcomes (d : List Nat)
    (tf : Bool) (q : List (List Nat)) (o : ReadOutcome)
    (h : readSelect true tf q o) :
    portWrite true d = Except.error PortError.errClosed ∧
      (o = ReadOutcome.closedPort ∨ (tf = true ∧ o = ReadOutcome.timedOut) ∨
        ∃ p rest, q = p :: rest ∧ o = ReadOutcome.gotData p) := by
  refine ⟨rfl, ?_⟩
  cases h with
  | closedReady tf q => exact Or.inl rfl
  | timerReady c q => exact Or.inr (Or.inl ⟨rfl, rfl⟩)
  | dataReady c tf p rest => exact Or.inr (Or.inr ⟨p, rest, rfl, rfl⟩)

/-- C9 witness: the amended statement evaluated after close with an empty
queue and no timer fired, where the read outcome is the closed-port error. -/
theorem c9_after_close_write_fails_and_read_outcomes_witness :
    portWrite true [1] = Except.error PortError.errClosed ∧
      (ReadOutcome.closedPort = ReadOutcome.closedPort ∨
        (false = true ∧ ReadOutcome.closedPort = ReadOutcome.timedOut) ∨
        ∃ p rest, ([] : List (List Nat)) = p :: rest ∧
          ReadOutcome.closedPort = ReadOutcome.gotData p) :=
  c9_after_close_write_fails_and_read_outcomes [1] false [] ReadOutcome.closedPort
    (readSelect.closedReady false [])

/-- C10.  A body that fails validation — shorter than `2 + crcLen` bytes or
with a checksum that does not validate — leaves the reassembly buffer exactly
as it was and publishes nothing. -/
theorem c10_invalid_body_preserves_buffer (crcLen : Nat)
    (validate : List Nat → List Nat → Bool) (buffer body : List Nat)
    (h : body.length < 2 + crcLen ∨
      validate (body.take (body.length - crcLen)) (body.drop (body.length - crcLen))
        = false) :
    (handleReceivedDataMessageBody crcLen validate buffer body).buffer = buffer ∧
      (handleReceivedDataMessageBody crcLen validate buffer body).published = none := by
  unfold handleReceivedDataMessageBody
  rcases h with h | h
  · rw [if_pos h]
    exact ⟨rfl, rfl⟩
  · by_cases hlen : body.length < 2 + crcLen
    · rw [if_pos hlen]
      exact ⟨rfl, rfl⟩
    · rw [if_neg hlen]
      rw [if_pos h]
      exact ⟨rfl, rfl⟩

/-- C10 witness: the empty body is too short for the default CRC-16 port and
leaves a nonempty buffer untouched with nothing published. -/
theorem c10_invalid_body_preserves_buffer_witness :
    (handleReceivedDataMessageBody 2 crc16Validate [9] []).buffer = [9] ∧
      (handleReceivedDataMessageBody 2 crc16Validate [9] []).published = none :=
  c10_invalid_body_preserves_buffer 2 crc16Validate [9] [] (Or.inl (by decide))

end Ants
